import Mathlib

/-!
Shallow embedding of `src/app.py` (storytranslator): a Flask service with a
session-based auth gate, a static language registry, and a translation
endpoint that builds a prompt and calls an upstream completion service.

Modelling conventions:
* A JSON request body is `Option` of a structure whose fields are `Option`:
  `none` for an absent body (`not data` in Python) and `none` fields for
  absent keys (`'k' not in data` / `data.get('k')`).
* The Flask session is modelled by its single key `authenticated`, an
  `Option Bool` (`none` = key absent).
* The upstream OpenAI call is modelled by its outcome, an
  `Except String String` (error message, or the returned completion text);
  handlers also report the list of user instructions of the upstream calls
  they issued, so "no upstream call" and "exactly one call" are statable.
* Environment variables (`os.getenv`) are `Option String`; Python string
  truthiness (`if not s`) is `truthy` below.
-/

set_option autoImplicit false

namespace StoryTranslator

/-- `AVAILABLE_LANGUAGES` (src/app.py lines 30-37): the static registry,
as an association list in the source's insertion order. -/
def AVAILABLE_LANGUAGES : List (String × String) :=
  [("spanish", "Spanish"),
   ("french", "French"),
   ("german", "German"),
   ("italian", "Italian"),
   ("portuguese", "Portuguese"),
   ("czech", "Czech")]

/-- Dict lookup `AVAILABLE_LANGUAGES[code]`. -/
def lookupLanguage (code : String) : Option String :=
  (AVAILABLE_LANGUAGES.find? (fun p => p.1 == code)).map Prod.snd

/-- Dict membership `code in AVAILABLE_LANGUAGES`. -/
def languageSupported (code : String) : Bool :=
  (lookupLanguage code).isSome

/-- Python truthiness of an optional string (`os.getenv` result):
`None` and `""` are falsy. -/
def truthy : Option String → Bool
  | none => false
  | some s => s ≠ ""

/-- The Flask session, restricted to the only key the app uses:
`authenticated` (`none` = key absent). -/
structure Session where
  authenticated : Option Bool
deriving DecidableEq

/-- `'authenticated' in session and session['authenticated']`
(the test used by `require_auth` and `check_auth`). -/
def Session.isAuthenticated (s : Session) : Bool :=
  match s.authenticated with
  | some b => b
  | none => false

/-- A JSON response body, one constructor per `jsonify` shape in the app. -/
inductive Body where
  /-- `{"error": msg}` -/
  | error (msg : String)
  /-- `{"success": true}` -/
  | success
  /-- `{"authenticated": b}` -/
  | authStatus (b : Bool)
  /-- the registry mapping -/
  | languages (m : List (String × String))
  /-- `{"translated_text": ..., "original_length": ..., "translated_length": ...}` -/
  | translation (translated_text : String) (original_length translated_length : Nat)
deriving DecidableEq

/-- An HTTP response: status code and JSON body. -/
structure Response where
  status : Nat
  body : Body
deriving DecidableEq

/-- `/login` request body (`data.get('username')`, `data.get('password')`). -/
structure LoginData where
  username : Option String
  password : Option String
deriving DecidableEq

/-- The environment configuration the auth code reads:
`AUTH_USERNAME`, `AUTH_PASSWORD`, `FLASK_ENV`. -/
structure Config where
  USERNAME : Option String
  PASSWORD : Option String
  FLASK_ENV : Option String
deriving DecidableEq

/-- `login` (src/app.py lines 52-72). Returns the session after the call and
the response. `data and data.get('username') == u and data.get('password') == p`
is the guarded comparison; the configured values are compared as exact strings. -/
def login (cfg : Config) (sess : Session) (data : Option LoginData) :
    Session × Response :=
  if !truthy cfg.USERNAME || !truthy cfg.PASSWORD then
    if cfg.FLASK_ENV == some "development" &&
        (match data with
         | some d => d.username == some "admin" && d.password == some "admin"
         | none => false) then
      ({ authenticated := some true }, ⟨200, .success⟩)
    else
      (sess, ⟨401, .error "Authentication not properly configured"⟩)
  else
    if (match data with
        | some d => d.username == cfg.USERNAME && d.password == cfg.PASSWORD
        | none => false) then
      ({ authenticated := some true }, ⟨200, .success⟩)
    else
      (sess, ⟨401, .error "Invalid credentials"⟩)

/-- `logout` (src/app.py lines 74-77): `session.pop('authenticated', None)`. -/
def logout (sess : Session) : Session × Response :=
  let _ := sess
  ({ authenticated := none }, ⟨200, .success⟩)

/-- `check_auth` (src/app.py lines 79-83). -/
def check_auth (sess : Session) : Response :=
  if sess.isAuthenticated then ⟨200, .authStatus true⟩
  else ⟨200, .authStatus false⟩

/-- `get_languages` (src/app.py lines 85-87). -/
def get_languages : Response :=
  ⟨200, .languages AVAILABLE_LANGUAGES⟩

/-- Helper for `pySplit`: walks the characters, accumulating the current
word reversed; whitespace ends the current word (if any). -/
def pyWordsAux : List Char → List Char → List (List Char)
  | [], [] => []
  | [], cur => [cur.reverse]
  | c :: cs, cur =>
    if c.isWhitespace then
      match cur with
      | [] => pyWordsAux cs []
      | _ => cur.reverse :: pyWordsAux cs []
    else pyWordsAux cs (c :: cur)

/-- Python `str.split()` with no separator: split on runs of whitespace,
discarding leading/trailing whitespace, never producing empty words. -/
def pySplit (s : String) : List String :=
  (pyWordsAux s.data []).map List.asString

/-- `len(s.split())`: the whitespace-split word count. -/
def countWords (s : String) : Nat :=
  (pySplit s).length

/-- `/translate-chunk` request body (`data['text']`, `data['target_language']`,
`data.get('context', '')`). -/
structure TranslateData where
  text : Option String
  target_language : Option String
  context : Option String
deriving DecidableEq

/-- First literal segment of the translation prompt f-strings
(src/app.py lines 109 and 111, identical tails). -/
def promptSeg1 : String :=
  "Please translate the following text into "

/-- Second literal segment of the translation prompt f-strings. -/
def promptSeg2 : String :=
  ".\nEnsure accuracy and fidelity to the original, but do not copy sentence structure directly if a different phrasing is more natural.\nInstead of translating word-for-word, rewrite each sentence naturally so that a native speaker of "

/-- Third literal segment of the translation prompt f-strings. -/
def promptSeg3 : String :=
  " would say it this way.\nUse idiomatic expressions, adjust sentence flow, and restructure phrases where necessary to make the text feel completely fluent and natural.\nPreserve paragraph structure, line breaks, and formatting exactly as in the source text.\nHere is the text:\n"

/-- The f-string of src/app.py line 111 (the `else` branch: no context). -/
def promptNoContext (text displayName : String) : String :=
  promptSeg1 ++ displayName ++ promptSeg2 ++ displayName ++ promptSeg3 ++ text

/-- The f-string of src/app.py line 109 (the branch taken when `context`
is truthy). -/
def promptWithContext (text displayName context : String) : String :=
  "Previous translation context: " ++ context ++ "\n\n" ++
    promptSeg1 ++ displayName ++ promptSeg2 ++ displayName ++ promptSeg3 ++ text

/-- The prompt-selection conditional of src/app.py lines 106-111:
`if context:` is Python string truthiness, i.e. non-emptiness. -/
def buildPrompt (text displayName context : String) : String :=
  if context ≠ "" then promptWithContext text displayName context
  else promptNoContext text displayName

/-- The system-message f-string of src/app.py line 117. -/
def systemMessage (displayName : String) : String :=
  "You are a professional literary translator with expertise in both the source language and "
    ++ displayName ++
  ".\nYour goal is to create a fluent, natural, and idiomatic translation that reads as if it were originally written in "
    ++ displayName ++
  ".\nEnsure accuracy and fidelity to the original, but do not copy sentence structure from the source text if a different structure sounds more natural.\nInstead of translating word-for-word, rewrite each sentence in the way a native speaker of "
    ++ displayName ++
  " would naturally express it.\nAdapt idioms, expressions, and sentence structures where necessary to make the translation sound natural and fluent in "
    ++ displayName ++
  ".\n\nRephrase sentences freely when necessary to sound natural in "
    ++ displayName ++
  ". If a sentence structure is too English-like, rewrite it in the way a native speaker would phrase it. Focus on idiomatic language in dialogues and avoid direct word-for-word translations. Read every sentence as if you were a native "
    ++ displayName ++
  " author and adjust phrasing accordingly.\n\nPreserve all paragraph breaks, line breaks, and formatting exactly as in the original. Do not add, remove, or merge paragraphs.\nYour task is to translate meaningfully and fluently, not mechanically."

/-- One upstream completion request (`client.chat.completions.create` at
src/app.py lines 114-122). The sampling temperature (0.3, a float) is fixed
per call and not modelled. -/
structure ChatRequest where
  model : String
  system : String
  user : String
  timeout_seconds : Nat
deriving DecidableEq

/-- The gate condition of `require_auth` (src/app.py line 43):
`'authenticated' not in session or not session['authenticated']`. -/
def notAuthenticated (s : Session) : Bool :=
  match s.authenticated with
  | none => true
  | some b => !b

/-- The `require_auth` decorator (src/app.py lines 40-46), specialised to
handlers that report their upstream calls. When the gate condition holds it
short-circuits with 401 and the wrapped handler never runs (so no upstream
call is made). -/
def require_auth (sess : Session) (f : Unit → Response × List ChatRequest) :
    Response × List ChatRequest :=
  if notAuthenticated sess then (⟨401, .error "Authentication required"⟩, [])
  else f ()

/-- The body of `translate_chunk` after the auth gate
(src/app.py lines 91-136). `upstream` is the outcome of the single
`client.chat.completions.create` call; the returned list holds the upstream
requests actually issued. -/
def translate_chunk_body (data : Option TranslateData)
    (upstream : Except String String) : Response × List ChatRequest :=
  match data with
  | none => (⟨400, .error "Missing required parameters"⟩, [])
  | some d =>
    match d.text, d.target_language with
    | some text, some target_language =>
      match lookupLanguage target_language with
      | none => (⟨400, .error "Unsupported target language"⟩, [])
      | some displayName =>
        let context := d.context.getD ""
        let prompt := buildPrompt text displayName context
        let req : ChatRequest := ⟨"gpt-4.1", systemMessage displayName, prompt, 280⟩
        match upstream with
        | .error e => (⟨500, .error e⟩, [req])
        | .ok translated_text =>
          (⟨200, .translation translated_text (countWords text)
              (countWords translated_text)⟩, [req])
    | _, _ => (⟨400, .error "Missing required parameters"⟩, [])

/-- The `/translate-chunk` endpoint: `require_auth` wrapping
`translate_chunk_body` (src/app.py lines 89-136). -/
def translate_chunk (sess : Session) (data : Option TranslateData)
    (upstream : Except String String) : Response × List ChatRequest :=
  require_auth sess (fun _ => translate_chunk_body data upstream)

/-! ## Helper lemmas -/

/-- The two session tests in the source (line 43 and line 81) are
complementary. -/
theorem notAuthenticated_eq (s : Session) :
    notAuthenticated s = !s.isAuthenticated := by
  cases s with
  | mk a =>
    cases a with
    | none => rfl
    | some b => cases b <;> rfl

/-- Every `login` call either answers success having set the flag, or
returns the session unchanged. -/
theorem login_cases (cfg : Config) (sess : Session) (data : Option LoginData) :
    login cfg sess data
        = ({ authenticated := some true }, ⟨200, .success⟩)
    ∨ (login cfg sess data).1 = sess := by
  unfold login
  split
  · split
    · exact Or.inl rfl
    · exact Or.inr rfl
  · split
    · exact Or.inl rfl
    · exact Or.inr rfl

/-- Two string appends differ when the second characters of their heads
differ (both heads having at least two characters). -/
theorem append_ne_of_second_char_ne (a b c d : String)
    (h : a.data[1]? ≠ b.data[1]?) (ha : 1 < a.length)
    (hb : 1 < b.length) : a ++ c ≠ b ++ d := by
  intro he
  apply h
  have h2 := congrArg (fun s => s.data[1]?) he
  simpa [String.data_append, List.getElem?_append, ha, hb] using h2

/-! ## Claim theorems -/

/-- C1: whenever the session's `authenticated` flag is absent or `false`,
a POST to `/translate-chunk` is answered 401 with an error body by the auth
gate, for every request body (valid or not) and every possible upstream
behaviour, and no upstream call is made. -/
theorem auth_gate_blocks_translate_chunk
    (sess : Session) (data : Option TranslateData)
    (upstream : Except String String)
    (h : sess.authenticated = none ∨ sess.authenticated = some false) :
    translate_chunk sess data upstream
      = (⟨401, .error "Authentication required"⟩, []) := by
  rcases h with h | h <;>
    simp [translate_chunk, require_auth, notAuthenticated, h]

/-- Witness for C1: a fresh (flag-absent) session with a fully valid body
and a successful upstream is still rejected with 401 and zero upstream
calls. -/
theorem auth_gate_blocks_translate_chunk_witness :
    translate_chunk ⟨none⟩
        (some ⟨some "Hello world", some "spanish", none⟩) (.ok "Hola mundo")
      = (⟨401, .error "Authentication required"⟩, []) :=
  auth_gate_blocks_translate_chunk _ _ _ (Or.inl rfl)

/-- C2: for an authenticated session, validation runs in order: a body that
is absent or lacks `text` or `target_language` yields 400
"Missing required parameters" with no upstream call; a body with both fields
whose language code is not in the registry yields 400
"Unsupported target language" with no upstream call; a body passing both
checks issues exactly one upstream call. -/
theorem translate_chunk_validation_order
    (sess : Session) (data : Option TranslateData)
    (upstream : Except String String)
    (hauth : sess.isAuthenticated = true) :
    ((data = none ∨
        ∃ d, data = some d ∧ (d.text = none ∨ d.target_language = none)) →
      translate_chunk sess data upstream
        = (⟨400, .error "Missing required parameters"⟩, []))
    ∧ (∀ d text tl, data = some d → d.text = some text →
        d.target_language = some tl → languageSupported tl = false →
        translate_chunk sess data upstream
          = (⟨400, .error "Unsupported target language"⟩, []))
    ∧ (∀ d text tl, data = some d → d.text = some text →
        d.target_language = some tl → languageSupported tl = true →
        (translate_chunk sess data upstream).2.length = 1) := by
  have hgate : notAuthenticated sess = false := by
    rw [notAuthenticated_eq, hauth]; rfl
  refine ⟨?_, ?_, ?_⟩
  · rintro (rfl | ⟨d, rfl, hmiss⟩)
    · simp [translate_chunk, require_auth, hgate, translate_chunk_body]
    · rcases hmiss with hmiss | hmiss <;>
      · cases htl : d.target_language <;> cases htext : d.text <;>
          simp_all [translate_chunk, require_auth, hgate, translate_chunk_body]
  · rintro d text tl rfl htext htl hunsupp
    have hlook : lookupLanguage tl = none := by
      simpa [languageSupported, Option.isSome_iff_exists] using hunsupp
    simp [translate_chunk, require_auth, hgate, translate_chunk_body,
      htext, htl, hlook]
  · rintro d text tl rfl htext htl hsupp
    obtain ⟨dn, hdn⟩ : ∃ dn, lookupLanguage tl = some dn := by
      simpa [languageSupported, Option.isSome_iff_exists] using hsupp
    simp [translate_chunk, require_auth, hgate, translate_chunk_body,
      htext, htl, hdn]
    cases upstream <;> simp

/-- Witness for C2: an authenticated session, a body missing `text`, and a
succeeding upstream: the missing-parameters branch fires with no upstream
call. -/
theorem translate_chunk_validation_order_witness :
    translate_chunk ⟨some true⟩ (some ⟨none, some "spanish", none⟩) (.ok "x")
      = (⟨400, .error "Missing required parameters"⟩, []) :=
  (translate_chunk_validation_order ⟨some true⟩
      (some ⟨none, some "spanish", none⟩) (.ok "x") rfl).1
    (Or.inr ⟨_, rfl, Or.inl rfl⟩)

/-- C3: on a successful upstream call, the response carries the upstream's
text and the two whitespace-split word counts (of the submitted text and of
the returned text); and the submitted text "Hello world" always counts as 2
original words. -/
theorem translate_chunk_word_counts
    (sess : Session) (d : TranslateData) (text tl out : String)
    (hauth : sess.isAuthenticated = true)
    (htext : d.text = some text) (htl : d.target_language = some tl)
    (hsupp : languageSupported tl = true) :
    (∃ dn, lookupLanguage tl = some dn ∧
      translate_chunk sess (some d) (.ok out)
        = (⟨200, .translation out (countWords text) (countWords out)⟩,
           [⟨"gpt-4.1", systemMessage dn,
             buildPrompt text dn (d.context.getD ""), 280⟩]))
    ∧ countWords "Hello world" = 2 := by
  have hgate : notAuthenticated sess = false := by
    rw [notAuthenticated_eq, hauth]; rfl
  obtain ⟨dn, hdn⟩ : ∃ dn, lookupLanguage tl = some dn := by
    simpa [languageSupported, Option.isSome_iff_exists] using hsupp
  refine ⟨⟨dn, hdn, ?_⟩, by decide⟩
  simp [translate_chunk, require_auth, hgate, translate_chunk_body,
    htext, htl, hdn]

/-- Witness for C3: authenticated session, text "Hello world", language
"spanish", upstream answer "Hola mundo": word counts 2 and 2. -/
theorem translate_chunk_word_counts_witness :
    translate_chunk ⟨some true⟩
        (some ⟨some "Hello world", some "spanish", none⟩) (.ok "Hola mundo")
      = (⟨200, .translation "Hola mundo" 2 2⟩,
         [⟨"gpt-4.1", systemMessage "Spanish",
           buildPrompt "Hello world" "Spanish" "", 280⟩]) := by
  obtain ⟨⟨dn, hdn, heq⟩, -⟩ := translate_chunk_word_counts ⟨some true⟩
    ⟨some "Hello world", some "spanish", none⟩ "Hello world" "spanish"
    "Hola mundo" rfl rfl rfl (by decide)
  have hdn2 : dn = "Spanish" := by
    have : lookupLanguage "spanish" = some "Spanish" := by decide
    rw [this] at hdn
    exact (Option.some.inj hdn).symm
  subst hdn2
  rw [heq, show countWords "Hello world" = 2 from by decide,
    show countWords "Hola mundo" = 2 from by decide]
  rfl

/-- C4: the outbound user instruction equals the continuity preamble
(`"Previous translation context: " ++ context ++ "\n\n"`) prepended to the
no-context instruction exactly when the request's context is non-empty;
with empty context it is exactly the no-context instruction; and the
instruction starts with the preamble's fixed prefix iff the context is
non-empty. -/
theorem buildPrompt_context_preamble (text dn ctx : String) :
    (ctx ≠ "" → buildPrompt text dn ctx
        = "Previous translation context: " ++ ctx ++ "\n\n"
            ++ promptNoContext text dn)
    ∧ (ctx = "" → buildPrompt text dn ctx = promptNoContext text dn)
    ∧ ((∃ rest, buildPrompt text dn ctx
          = "Previous translation context: " ++ rest) ↔ ctx ≠ "") := by
  refine ⟨?_, ?_, ?_, ?_⟩
  · intro h
    simp [buildPrompt, h, promptWithContext, promptNoContext,
      String.append_assoc]
  · intro h
    simp [buildPrompt, h]
  · rintro ⟨rest, hr⟩ hctx
    subst hctx
    simp only [buildPrompt, ne_eq, not_true_eq_false, if_false, ite_false] at hr
    have hshape : promptNoContext text dn
        = promptSeg1 ++ (dn ++ (promptSeg2 ++ (dn ++ (promptSeg3 ++ text))))
        := by
      simp [promptNoContext, String.append_assoc]
    rw [hshape] at hr
    exact append_ne_of_second_char_ne promptSeg1
      "Previous translation context: " _ rest
      (by decide) (by decide) (by decide) hr
  · intro h
    refine ⟨ctx ++ ("\n\n" ++ (promptSeg1 ++ (dn ++ (promptSeg2
      ++ (dn ++ (promptSeg3 ++ text)))))), ?_⟩
    simp [buildPrompt, h, promptWithContext, String.append_assoc]

/-- Witness for C4: with context "prior text", the prompt is the preamble
followed by the no-context prompt. -/
theorem buildPrompt_context_preamble_witness :
    buildPrompt "Hello" "Spanish" "prior text"
      = "Previous translation context: " ++ "prior text" ++ "\n\n"
          ++ promptNoContext "Hello" "Spanish" :=
  (buildPrompt_context_preamble "Hello" "Spanish" "prior text").1 (by decide)

/-- C5: when the upstream call fails with message `e`, the endpoint answers
500 with body exactly `{error: e}` (an error body carries no word counts and
no translation), and exactly one upstream call was made (no retry). -/
theorem upstream_failure_returns_500
    (sess : Session) (d : TranslateData) (text tl e : String)
    (hauth : sess.isAuthenticated = true)
    (htext : d.text = some text) (htl : d.target_language = some tl)
    (hsupp : languageSupported tl = true) :
    (translate_chunk sess (some d) (.error e)).1 = ⟨500, .error e⟩
    ∧ (translate_chunk sess (some d) (.error e)).2.length = 1 := by
  have hgate : notAuthenticated sess = false := by
    rw [notAuthenticated_eq, hauth]; rfl
  obtain ⟨dn, hdn⟩ : ∃ dn, lookupLanguage tl = some dn := by
    simpa [languageSupported, Option.isSome_iff_exists] using hsupp
  constructor <;>
    simp [translate_chunk, require_auth, hgate, translate_chunk_body,
      htext, htl, hdn]

/-- Witness for C5: authenticated valid request, upstream raises
"connection reset": the response is 500 `{error: "connection reset"}` after
a single upstream attempt. -/
theorem upstream_failure_returns_500_witness :
    (translate_chunk ⟨some true⟩
        (some ⟨some "Hello world", some "french", none⟩)
        (.error "connection reset")).1 = ⟨500, .error "connection reset"⟩
    ∧ (translate_chunk ⟨some true⟩
        (some ⟨some "Hello world", some "french", none⟩)
        (.error "connection reset")).2.length = 1 :=
  upstream_failure_returns_500 ⟨some true⟩
    ⟨some "Hello world", some "french", none⟩ "Hello world" "french"
    "connection reset" rfl rfl rfl (by decide)

/-- A language code is supported exactly when it is one of the six
registry codes. -/
theorem languageSupported_iff_mem (code : String) :
    languageSupported code = true ↔
      code ∈ ["spanish", "french", "german", "italian", "portuguese",
              "czech"] := by
  constructor
  · intro h
    have h2 : (List.find? (fun p => p.1 == code)
        AVAILABLE_LANGUAGES).isSome = true := by
      simpa [languageSupported, lookupLanguage] using h
    obtain ⟨a, ha⟩ := Option.isSome_iff_exists.mp h2
    have hmem := List.mem_of_find?_eq_some ha
    have hcode : a.1 = code := by simpa using List.find?_some ha
    subst hcode
    simp only [AVAILABLE_LANGUAGES, List.mem_cons, List.not_mem_nil,
      or_false] at hmem
    rcases hmem with rfl | rfl | rfl | rfl | rfl | rfl <;> simp
  · intro h
    simp only [List.mem_cons, List.not_mem_nil, or_false] at h
    rcases h with rfl | rfl | rfl | rfl | rfl | rfl <;> decide

/-- C6: `/languages` returns exactly the six fixed code→name pairs, as the
value of an immutable constant; and an authenticated translate-chunk
request with both fields present reaches the upstream call iff its code is
one of those six. -/
theorem language_registry_fixed :
    get_languages = ⟨200, .languages
      [("spanish", "Spanish"), ("french", "French"), ("german", "German"),
       ("italian", "Italian"), ("portuguese", "Portuguese"),
       ("czech", "Czech")]⟩
    ∧ (∀ code, languageSupported code = true ↔
        code ∈ ["spanish", "french", "german", "italian", "portuguese",
                "czech"])
    ∧ (∀ (sess : Session) (d : TranslateData) text tl upstream,
        sess.isAuthenticated = true →
        d.text = some text → d.target_language = some tl →
        ((translate_chunk sess (some d) upstream).2 ≠ [] ↔
          tl ∈ ["spanish", "french", "german", "italian", "portuguese",
                "czech"])) := by
  refine ⟨rfl, languageSupported_iff_mem, ?_⟩
  intro sess d text tl upstream hauth htext htl
  have hgate : notAuthenticated sess = false := by
    rw [notAuthenticated_eq, hauth]; rfl
  rw [← languageSupported_iff_mem]
  cases hsupp : languageSupported tl with
  | true =>
    obtain ⟨dn, hdn⟩ : ∃ dn, lookupLanguage tl = some dn := by
      simpa [languageSupported, Option.isSome_iff_exists] using hsupp
    cases upstream <;>
      simp [translate_chunk, require_auth, hgate, translate_chunk_body,
        htext, htl, hdn]
  | false =>
    have hlook : lookupLanguage tl = none := by
      simpa [languageSupported, Option.isSome_iff_exists] using hsupp
    simp [translate_chunk, require_auth, hgate, translate_chunk_body,
      htext, htl, hlook]

/-- Witness for C6: a "german" request from an authenticated session does
reach the upstream. -/
theorem language_registry_fixed_witness :
    (translate_chunk ⟨some true⟩ (some ⟨some "abc", some "german", none⟩)
        (.ok "xyz")).2 ≠ [] :=
  (language_registry_fixed.2.2 ⟨some true⟩
      ⟨some "abc", some "german", none⟩ "abc" "german" (.ok "xyz")
      rfl rfl rfl).2 (by decide)

/-- C7: with a configured (non-empty) credential pair: login with exactly
that pair authenticates the session and returns success, after which
`check_auth` reports true; any other supplied pair leaves the session as it
was and returns 401 "Invalid credentials"; `logout` unconditionally clears
the flag (after it `check_auth` reports false) and is idempotent. -/
theorem auth_session_lifecycle
    (cfg : Config) (u p : String)
    (hu : cfg.USERNAME = some u) (hp : cfg.PASSWORD = some p)
    (hu0 : u ≠ "") (hp0 : p ≠ "") :
    (∀ sess, login cfg sess (some ⟨some u, some p⟩)
        = ({ authenticated := some true }, ⟨200, .success⟩)
      ∧ check_auth (login cfg sess (some ⟨some u, some p⟩)).1
          = ⟨200, .authStatus true⟩)
    ∧ (∀ sess (d : LoginData),
        d.username ≠ some u ∨ d.password ≠ some p →
        login cfg sess (some d) = (sess, ⟨401, .error "Invalid credentials"⟩))
    ∧ (∀ sess, logout sess = ({ authenticated := none }, ⟨200, .success⟩)
        ∧ check_auth (logout sess).1 = ⟨200, .authStatus false⟩
        ∧ logout (logout sess).1 = logout sess) := by
  refine ⟨?_, ?_, ?_⟩
  · intro sess
    constructor <;> simp [login, check_auth, Session.isAuthenticated,
      truthy, hu, hp, hu0, hp0]
  · intro sess d hne
    rcases hne with hne | hne <;>
      simp [login, truthy, hu, hp, hu0, hp0, hne]
  · intro sess
    refine ⟨rfl, rfl, rfl⟩

/-- Witness for C7: with configured pair alice/pw, the right pair logs in
(and check-auth then reports true), a wrong password is rejected leaving
the session unauthenticated, and logout clears an authenticated session. -/
theorem auth_session_lifecycle_witness :
    (login ⟨some "alice", some "pw", none⟩ ⟨none⟩
        (some ⟨some "alice", some "pw"⟩)
      = ({ authenticated := some true }, ⟨200, .success⟩))
    ∧ (login ⟨some "alice", some "pw", none⟩ ⟨none⟩
        (some ⟨some "alice", some "bad"⟩)
      = (⟨none⟩, ⟨401, .error "Invalid credentials"⟩))
    ∧ logout ⟨some true⟩ = (⟨none⟩, ⟨200, .success⟩) := by
  have h := auth_session_lifecycle ⟨some "alice", some "pw", none⟩
    "alice" "pw" rfl rfl (by decide) (by decide)
  exact ⟨(h.1 ⟨none⟩).1,
    h.2.1 ⟨none⟩ ⟨some "alice", some "bad"⟩ (Or.inr (by decide)),
    (h.2.2 ⟨some true⟩).1⟩

/-- C8: when the credential pair is not configured (either value unset or
empty), a login with username "admin" and password "admin" succeeds iff
development mode is active; in development mode it authenticates the
session; outside development mode it returns 401
"Authentication not properly configured" and leaves the session exactly as
it was (an unauthenticated session stays unauthenticated). -/
theorem dev_fallback_login
    (cfg : Config) (sess : Session)
    (hcred : truthy cfg.USERNAME = false ∨ truthy cfg.PASSWORD = false) :
    ((login cfg sess (some ⟨some "admin", some "admin"⟩)).2
        = ⟨200, .success⟩ ↔ cfg.FLASK_ENV = some "development")
    ∧ (cfg.FLASK_ENV = some "development" →
        login cfg sess (some ⟨some "admin", some "admin"⟩)
          = ({ authenticated := some true }, ⟨200, .success⟩))
    ∧ (cfg.FLASK_ENV ≠ some "development" →
        login cfg sess (some ⟨some "admin", some "admin"⟩)
          = (sess, ⟨401, .error "Authentication not properly configured"⟩))
    := by
  by_cases henv : cfg.FLASK_ENV = some "development" <;>
    rcases hcred with hcred | hcred <;>
      simp [login, hcred, henv]

/-- Witness for C8: with no credentials configured, admin/admin logs in
under development mode and is rejected as unconfigured outside it. -/
theorem dev_fallback_login_witness :
    login ⟨none, none, some "development"⟩ ⟨none⟩
        (some ⟨some "admin", some "admin"⟩)
      = ({ authenticated := some true }, ⟨200, .success⟩)
    ∧ login ⟨none, none, none⟩ ⟨none⟩ (some ⟨some "admin", some "admin"⟩)
      = (⟨none⟩, ⟨401, .error "Authentication not properly configured"⟩) :=
  ⟨(dev_fallback_login ⟨none, none, some "development"⟩ ⟨none⟩
      (Or.inl rfl)).2.1 rfl,
   (dev_fallback_login ⟨none, none, none⟩ ⟨none⟩
      (Or.inl rfl)).2.2 (by decide)⟩

/-- C9 counterexample: the claim "empty-string text fails with
MissingParameters and no upstream call" is false: an authenticated request
with `text = ""` and a supported language is not answered 400
"Missing required parameters" — it makes one upstream call and succeeds. -/
theorem empty_text_not_rejected :
    (translate_chunk ⟨some true⟩ (some ⟨some "", some "spanish", none⟩)
        (.ok "Hola")).1 ≠ ⟨400, .error "Missing required parameters"⟩
    ∧ (translate_chunk ⟨some true⟩ (some ⟨some "", some "spanish", none⟩)
        (.ok "Hola")).2.length = 1
    ∧ (translate_chunk ⟨some true⟩ (some ⟨some "", some "spanish", none⟩)
        (.ok "Hola")).1.status = 200 := by
  refine ⟨?_, ?_, ?_⟩ <;> decide

/-- C9 amended: validation checks field presence only. A request whose
body is absent or lacks the `text` key fails with 400
"Missing required parameters" and no upstream call; a present-but-empty
`text` passes validation, and with a supported language the upstream call
is made. -/
theorem missing_text_presence_only
    (sess : Session) (upstream : Except String String)
    (hauth : sess.isAuthenticated = true) :
    (∀ data, (data = none ∨ ∃ d, data = some d ∧ d.text = none) →
        translate_chunk sess data upstream
          = (⟨400, .error "Missing required parameters"⟩, []))
    ∧ (∀ (d : TranslateData) tl, d.text = some "" →
        d.target_language = some tl → languageSupported tl = true →
        (translate_chunk sess (some d) upstream).2.length = 1) := by
  have hgate : notAuthenticated sess = false := by
    rw [notAuthenticated_eq, hauth]; rfl
  constructor
  · rintro data (rfl | ⟨d, rfl, hmiss⟩)
    · simp [translate_chunk, require_auth, hgate, translate_chunk_body]
    · cases htl : d.target_language <;>
        simp [translate_chunk, require_auth, hgate, translate_chunk_body,
          hmiss, htl]
  · intro d tl htext htl hsupp
    obtain ⟨dn, hdn⟩ : ∃ dn, lookupLanguage tl = some dn := by
      simpa [languageSupported, Option.isSome_iff_exists] using hsupp
    cases upstream <;>
      simp [translate_chunk, require_auth, hgate, translate_chunk_body,
        htext, htl, hdn]

/-- Witness for the amended C9: absent `text` key is rejected with no
upstream call; empty `text` with language "czech" reaches the upstream. -/
theorem missing_text_presence_only_witness :
    translate_chunk ⟨some true⟩ (some ⟨none, some "czech", none⟩) (.ok "A")
      = (⟨400, .error "Missing required parameters"⟩, [])
    ∧ (translate_chunk ⟨some true⟩ (some ⟨some "", some "czech", none⟩)
        (.ok "A")).2.length = 1 := by
  have h := missing_text_presence_only ⟨some true⟩ (.ok "A") rfl
  exact ⟨h.1 (some ⟨none, some "czech", none⟩) (Or.inr ⟨_, rfl, rfl⟩),
    h.2 ⟨some "", some "czech", none⟩ "czech" rfl rfl (by decide)⟩

/-- C10: a login call that does not answer 200 (i.e. fails with
InvalidCredentials or ConfigurationError) returns the session unchanged:
it neither sets nor clears the `authenticated` flag. -/
theorem login_failure_preserves_session
    (cfg : Config) (sess : Session) (data : Option LoginData)
    (h : (login cfg sess data).2.status ≠ 200) :
    (login cfg sess data).1 = sess := by
  rcases login_cases cfg sess data with he | he
  · rw [he] at h
    simp at h
  · exact he

/-- Witness for C10: a wrong-password login against configured credentials
leaves an authenticated session authenticated. -/
theorem login_failure_preserves_session_witness :
    (login ⟨some "alice", some "pw", none⟩ ⟨some true⟩
        (some ⟨some "alice", some "bad"⟩)).1 = ⟨some true⟩ :=
  login_failure_preserves_session ⟨some "alice", some "pw", none⟩
    ⟨some true⟩ (some ⟨some "alice", some "bad"⟩) (by decide)

end StoryTranslator
